import Mathlib

/-!
Shallow embedding of the association metadata resolver and runtime handle
of the `rel` ORM (file `association.go`), together with proofs of the
specification's claims about it.

The resolver part embeds `extractAssociationData` and its helpers
(`getAssocField`, the tag parsing, key inference, cardinality inference and
the process-wide cache).  External collaborators (the document field-index
extractor `extractDocumentData`, the field-name function `fieldName` and the
case-conversion utility `snaker.CamelToSnake`) are passed in as data inside a
`World`, exactly at the interface boundary the code consumes them.
-/

namespace Rel

/-- AssociationType: the closed enumeration of association cardinalities,
mirroring the Go constants BelongsTo, HasOne, HasMany, ManyToMany. -/
inductive AssociationType where
  | belongsTo
  | hasOne
  | hasMany
  | manyToMany
deriving DecidableEq, Repr

/-- The declared type of an association struct field: a named record type,
possibly wrapped in pointers and slices (reflect.Ptr / reflect.Slice). -/
inductive FieldType where
  | record (name : String)
  | ptr (t : FieldType)
  | slice (t : FieldType)
deriving DecidableEq, Repr

/-- Name of the underlying record type after stripping every pointer and
slice wrapper, mirroring the loop
`for ft.Kind() == reflect.Ptr || ft.Kind() == reflect.Slice { ft = ft.Elem() }`. -/
def FieldType.baseName : FieldType → String
  | .record n => n
  | .ptr t => t.baseName
  | .slice t => t.baseName

/-- The cardinality test of line 247:
`sf.Type.Kind() == reflect.Slice || (sf.Type.Kind() == reflect.Ptr && sf.Type.Elem().Kind() == reflect.Slice)`. -/
def FieldType.isSliceKind : FieldType → Bool
  | .slice _ => true
  | .ptr (.slice _) => true
  | _ => false

/-- One struct field of a host record type: its field name (the result of the
external `fieldName` helper), the raw values of its `ref`, `fk`, `through`
and `autosave` struct tags (an absent tag reads as the empty string, exactly
as `reflect.StructTag.Get`), and its declared type. -/
structure StructField where
  fname : String
  refTag : String
  fkTag : String
  throughTag : String
  autosaveTag : String
  ftype : FieldType
deriving DecidableEq, Repr

/-- A host record type: its name (`reflect.Type.Name()`) and its struct
fields in declaration order. -/
structure HostType where
  name : String
  fields : List StructField
deriving DecidableEq, Repr

/-- The external collaborators consumed by the resolver:
`docIndex n` is `extractDocumentData(T, true).index` for the record type
named `n` (a map from snake_case field name to field position), and
`camelToSnake` is `snaker.CamelToSnake`. -/
structure World where
  docIndex : String → List (String × Nat)
  camelToSnake : String → String

/-- Lookup in a document field index (the Go map access `index[name]`). -/
def lookupIdx : List (String × Nat) → String → Option Nat
  | [], _ => none
  | (n, i) :: rest, name => if n = name then some i else lookupIdx rest name

/-- The cached, immutable association metadata, mirroring the Go struct
`associationData` field by field. -/
structure associationData where
  typ : AssociationType
  targetIndex : Nat
  referenceField : String
  referenceIndex : Nat
  referenceThrough : String
  foreignField : String
  foreignIndex : Nat
  foreignThrough : String
  through : String
  autosave : Bool
deriving DecidableEq, Repr

/-- Go's `strings.Split(s, ":")` on the character list of a tag value.
Mirrors Go semantics: splitting the empty string yields one empty part. -/
def splitOnColon : List Char → List (List Char)
  | [] => [[]]
  | c :: rest =>
    let r := splitOnColon rest
    if c = ':' then [] :: r
    else
      match r with
      | [] => [[c]]
      | h :: t => (c :: h) :: t

/-- The helper `getAssocField`: parse a `ref`/`fk` tag value of the form
`field[:throughField]`.  Exactly the Go code: split on `:`; when there are
exactly two parts return both, otherwise return the first part and `""`. -/
def getAssocField (tagVal : String) : String × String :=
  let fields := (splitOnColon tagVal.data).map (fun l => String.mk l)
  if fields.length = 2 then (fields.headD "", fields.getD 1 "")
  else (fields.headD "", "")

/-- The key-inference step (lines 215-230): returns the final
`(ref, fk, refThrough, fkThrough)` quadruple.  When either parsed tag key is
empty the convention-based inference overwrites the keys; otherwise the
parsed tag values pass through unchanged. -/
def inferKeys (w : World) (rtName : String) (sf : StructField) :
    String × String × String × String :=
  let r := getAssocField sf.refTag
  let f := getAssocField sf.fkTag
  if r.1 = "" ∨ f.1 = "" then
    if sf.throughTag ≠ "" then
      ("id", "id", w.camelToSnake rtName ++ "_id",
        w.camelToSnake sf.ftype.baseName ++ "_id")
    else if (lookupIdx (w.docIndex rtName) (sf.fname ++ "_id")).isSome then
      (sf.fname ++ "_id", "id", r.2, f.2)
    else
      ("id", w.camelToSnake rtName ++ "_id", r.2, f.2)
  else
    (r.1, f.1, r.2, f.2)

/-- Assembly of the final descriptor once both key positions are resolved
(lines 235-262): cardinality inference plus the through fields, which are
written only in the many-to-many branch. -/
def buildFrom (ks : String × String × String × String)
    (index : Nat) (sf : StructField) (refId fkId : Nat) : associationData :=
  if sf.ftype.isSliceKind then
    if sf.throughTag ≠ "" then
      { typ := .manyToMany, targetIndex := index,
        referenceField := ks.1, referenceIndex := refId,
        referenceThrough := ks.2.2.1,
        foreignField := ks.2.1, foreignIndex := fkId,
        foreignThrough := ks.2.2.2,
        through := sf.throughTag, autosave := sf.autosaveTag == "true" }
    else
      { typ := .hasMany, targetIndex := index,
        referenceField := ks.1, referenceIndex := refId,
        referenceThrough := "",
        foreignField := ks.2.1, foreignIndex := fkId,
        foreignThrough := "",
        through := "", autosave := sf.autosaveTag == "true" }
  else
    if ks.1.length > ks.2.1.length then
      { typ := .belongsTo, targetIndex := index,
        referenceField := ks.1, referenceIndex := refId,
        referenceThrough := "",
        foreignField := ks.2.1, foreignIndex := fkId,
        foreignThrough := "",
        through := "", autosave := sf.autosaveTag == "true" }
    else
      { typ := .hasOne, targetIndex := index,
        referenceField := ks.1, referenceIndex := refId,
        referenceThrough := "",
        foreignField := ks.2.1, foreignIndex := fkId,
        foreignThrough := "",
        through := "", autosave := sf.autosaveTag == "true" }

/-- Assembly of the final descriptor for a field: key inference followed by
the cardinality branch. -/
def buildData (w : World) (rtName : String) (index : Nat) (sf : StructField)
    (refId fkId : Nat) : associationData :=
  buildFrom (inferKeys w rtName sf) index sf refId fkId

/-- The uncached body of `extractAssociationData` applied to one struct
field.  A Go `panic` is modelled as `Except.error` carrying the panic
message verbatim. -/
def resolveSF (w : World) (rtName : String) (index : Nat) (sf : StructField) :
    Except String associationData :=
  match lookupIdx (w.docIndex rtName) (inferKeys w rtName sf).1 with
  | none =>
      .error ("rel: references (" ++ (inferKeys w rtName sf).1 ++ ") field not found ")
  | some refId =>
      match lookupIdx (w.docIndex sf.ftype.baseName) (inferKeys w rtName sf).2.1 with
      | none =>
          .error ("rel: foreign_key (" ++ (inferKeys w rtName sf).2.1 ++ ") field not found")
      | some fkId => .ok (buildData w rtName index sf refId fkId)

/-- Resolution for a (host type, field position) pair, before caching:
`rt.Field(index)` followed by the body of `extractAssociationData`. -/
def resolveField (w : World) (rt : HostType) (index : Nat) :
    Except String associationData :=
  match rt.fields[index]? with
  | none => .error "reflect: Field index out of range"
  | some sf => resolveSF w rt.name index sf

/-- The process-wide descriptor cache `associationCache` (a `sync.Map`
keyed by `associationKey{rt, index}`), modelled as an association list where
a fresh store is prepended and `Load` returns the first match. -/
abbrev AssocCache : Type := List ((HostType × Nat) × associationData)

/-- The load operation `associationCache.Load`. -/
def cacheLoad : AssocCache → HostType × Nat → Option associationData
  | ([] : List ((HostType × Nat) × associationData)), _ => none
  | (k2, d) :: rest, k => if k2 = k then some d else cacheLoad rest k

/-- Function `extractAssociationData` with its cache made explicit.  Returns the
descriptor, the cache after the call, and whether the call was answered
from the cache (`true`) or had to run the inference (`false`). -/
def extractAssociationData (w : World) (c : AssocCache) (rt : HostType)
    (index : Nat) : Except String (associationData × AssocCache × Bool) :=
  match cacheLoad c (rt, index) with
  | some d => .ok (d, c, true)
  | none =>
      match resolveField w rt index with
      | .error e => .error e
      | .ok d => .ok (d, (((rt, index), d) :: c : List ((HostType × Nat) × associationData)), false)

/-!
Runtime values and the association handle.

Go values reachable through `reflect.Value` are embedded as `GoVal`.  A nil
pointer carries the zero value of its pointee type (so that
`reflect.New(rv.Type().Elem())` can be modelled); `vnilSlice` is a nil slice,
`vslice` a non-nil (possibly empty) one.
-/

/-- A runtime Go value as seen through reflection. -/
inductive GoVal where
  | vint (n : Int)
  | vstr (s : String)
  | vnil (zero : GoVal)
  | vptr (v : GoVal)
  | vstruct (fields : List GoVal)
  | vnilSlice
  | vslice (xs : List GoVal)

/-- Reading `rv.FieldByIndex(targetIndex)` / `rv.Field(i)` on a struct value:
`none` models the reflect failure for an out-of-range index or a
non-struct receiver. -/
def getField : GoVal → Nat → Option GoVal
  | .vstruct fs, i => fs[i]?
  | _, _ => none

/-- Writing a struct field in place (`rv.Set` through an addressable field). -/
def setField : GoVal → Nat → GoVal → GoVal
  | .vstruct fs, i, x => .vstruct (fs.set i x)
  | v, _, _ => v

/-- Modelled from the spec: the pointer-indirection resolver (the external
`indirect` helper and `reflect.Indirect`, both outside this file in the
repository): "the ... current value at the ... position, with pointer
indirection resolved". -/
def indirectV : GoVal → GoVal
  | .vptr v => v
  | v => v

mutual
/-- Modelled from the spec: the external `isDeepZero` helper, which is not
part of this file in the repository: "true iff the target field, after
dereferencing pointers, is recursively a zero value (every leaf field equals
its type's zero value)". -/
def isDeepZero : GoVal → Bool
  | .vint n => n == 0
  | .vstr s => s == ""
  | .vnil _ => true
  | .vptr v => isDeepZero v
  | .vstruct fs => allDeepZero fs
  | .vnilSlice => true
  | .vslice xs => xs.isEmpty

/-- All values in a list are recursively zero. -/
def allDeepZero : List GoVal → Bool
  | [] => true
  | x :: xs => isDeepZero x && allDeepZero xs
end

/-- The association handle: a resolved descriptor paired with the live host
record instance (the Go struct value after the pointer dereference done by
`newAssociation`). -/
structure Association where
  data : associationData
  rv : GoVal

/-- Method `Association.Document` (lines 58-82).  `persisted` is the external
`Document.Persisted` predicate on the wrapped value ("true iff the wrapped
value's primary key is non-zero").  Returns the document's underlying value,
the `loaded` flag, and the host value after the call (a nil pointer field is
set to a freshly allocated zero target). -/
def Association.document (persisted : GoVal → Bool) (a : Association) :
    Option (GoVal × Bool × GoVal) :=
  match getField a.rv a.data.targetIndex with
  | none => none
  | some rv =>
    match rv with
    | .vnil z => some (z, false, setField a.rv a.data.targetIndex (.vptr z))
    | .vptr v => some (v, persisted v, a.rv)
    | v => some (v, persisted v, a.rv)

/-- Method `Association.Collection` (lines 86-106).  Returns the collection's
underlying sequence value, the `loaded` flag (`!rv.IsNil()`), and the host
value after the call; `none` models the reflect failures: an out-of-range
index, a target field that is neither a slice nor a pointer (`rv.IsNil()`
panics on line 89), and a nil pointer whose pointee type is not a slice
(`reflect.MakeSlice(rv.Elem().Type(), 0, 0)` panics on line 95; the zero
value of a slice-typed pointee is the nil slice). -/
def Association.collection (a : Association) : Option (GoVal × Bool × GoVal) :=
  match getField a.rv a.data.targetIndex with
  | none => none
  | some rv =>
    match rv with
    | .vnil .vnilSlice => some (.vslice [], false,
        setField a.rv a.data.targetIndex (.vptr (.vslice [])))
    | .vnil _ => none
    | .vptr v => some (v, true, a.rv)
    | .vnilSlice => some (.vslice [], false,
        setField a.rv a.data.targetIndex (.vslice []))
    | .vslice xs => some (.vslice xs, true, a.rv)
    | _ => none

/-- Method `Association.IsZero` (lines 109-115):
`isDeepZero(reflect.Indirect(rv), 1)` on the target field. -/
def Association.isZero (a : Association) : Option Bool :=
  (getField a.rv a.data.targetIndex).map (fun rv => isDeepZero (indirectV rv))

/-- Reading `rv.Field(i)` followed by `indirect`, with the reflect panics on a
non-struct or out-of-range receiver modelled as errors. -/
def structFieldIndirect : GoVal → Nat → Except String GoVal
  | .vstruct fs, i =>
    match fs[i]? with
    | some x => .ok (indirectV x)
    | none => .error "reflect: Field index out of range"
  | _, _ => .error "reflect: call of reflect.Value.Field on non-struct value"

/-- Method `Association.ForeignValue` (lines 144-158).  The guard rejects the
multiplicity-many cardinalities with the Go panic message; afterwards the
target field is read, one pointer layer is stripped (`rv.Elem()`, which on a
nil pointer yields the invalid `reflect.Value`, so the subsequent `Field`
call fails), and the foreign-key field is returned with indirection
resolved. -/
def Association.foreignValue (a : Association) : Except String GoVal :=
  if a.data.typ = .hasMany ∨ a.data.typ = .manyToMany then
    .error "cannot infer foreign value for has many or many to many association"
  else
    match getField a.rv a.data.targetIndex with
    | none => .error "reflect: call of reflect.Value.Field on invalid receiver"
    | some rv =>
      match rv with
      | .vnil _ => .error "reflect: call of reflect.Value.Field on zero Value"
      | .vptr v => structFieldIndirect v a.data.foreignIndex
      | v => structFieldIndirect v a.data.foreignIndex

/-- Method `Association.ReferenceValue` (lines 128-130). -/
def Association.referenceValue (a : Association) : Option GoVal :=
  (getField a.rv a.data.referenceIndex).map indirectV

/-- Whether a fallible call completed without a fatal failure. -/
def exOk {ε α : Type} : Except ε α → Bool
  | .ok _ => true
  | .error _ => false

/-!
Concrete fixtures: a host type `User` with association fields of every
shape, a target type `Address`, and the collaborator environment for them.
Used by the witness theorems to run the definitions on closed inputs.
-/

/-- Fixture collaborators: field indexes of `User` and `Address`, and a
snake-case function for those two names. -/
def wUser : World where
  docIndex := fun n =>
    if n = "User" then [("id", 0), ("address_id", 1)]
    else if n = "Address" then [("id", 0), ("user_id", 1)]
    else []
  camelToSnake := fun n => if n = "User" then "user" else "address"

/-- Untagged singular field whose host has `address_id`: belongs-to shape. -/
def sfBelongs : StructField :=
  { fname := "address", refTag := "", fkTag := "", throughTag := "",
    autosaveTag := "", ftype := .record "Address" }

/-- Untagged pointer field whose host lacks `home_id`: has-one shape. -/
def sfHasOne : StructField :=
  { fname := "home", refTag := "", fkTag := "", throughTag := "",
    autosaveTag := "", ftype := .ptr (.record "Address") }

/-- Slice field with a `through` tag: many-to-many shape. -/
def sfM2M : StructField :=
  { fname := "addresses", refTag := "", fkTag := "", throughTag := "user_addresses",
    autosaveTag := "", ftype := .slice (.record "Address") }

/-- Slice field without a `through` tag: has-many shape. -/
def sfHasMany : StructField :=
  { fname := "zones", refTag := "", fkTag := "", throughTag := "",
    autosaveTag := "true", ftype := .slice (.record "Address") }

/-- Singular field carrying a `through` tag: the tag must not leak into the
resolved descriptor. -/
def sfThrSing : StructField :=
  { fname := "home2", refTag := "", fkTag := "", throughTag := "jt",
    autosaveTag := "", ftype := .record "Address" }

/-- Field with an explicit `ref` tag naming a field the host lacks. -/
def sfBadRef : StructField :=
  { fname := "bad", refTag := "missing", fkTag := "id", throughTag := "",
    autosaveTag := "", ftype := .record "Address" }

/-- Field where only the `ref` tag is supplied (`fk` absent). -/
def sfOneTag : StructField :=
  { fname := "address", refTag := "custom_id", fkTag := "", throughTag := "",
    autosaveTag := "", ftype := .record "Address" }

/-- The fixture host type. -/
def rtUser : HostType :=
  { name := "User",
    fields := [sfBelongs, sfHasOne, sfM2M, sfHasMany, sfThrSing, sfBadRef, sfOneTag] }

/-- Descriptor the resolver computes for `sfBelongs` at position 0. -/
def dBelongs : associationData :=
  { typ := .belongsTo, targetIndex := 0, referenceField := "address_id",
    referenceIndex := 1, referenceThrough := "", foreignField := "id",
    foreignIndex := 0, foreignThrough := "", through := "", autosave := false }

/-- Descriptor the resolver computes for `sfHasOne` at position 1. -/
def dHasOne : associationData :=
  { typ := .hasOne, targetIndex := 1, referenceField := "id",
    referenceIndex := 0, referenceThrough := "", foreignField := "user_id",
    foreignIndex := 1, foreignThrough := "", through := "", autosave := false }

/-- Descriptor the resolver computes for `sfM2M` at position 2. -/
def dM2M : associationData :=
  { typ := .manyToMany, targetIndex := 2, referenceField := "id",
    referenceIndex := 0, referenceThrough := "user_id", foreignField := "id",
    foreignIndex := 0, foreignThrough := "address_id",
    through := "user_addresses", autosave := false }

/-- Descriptor the resolver computes for `sfHasMany` at position 3. -/
def dHasMany : associationData :=
  { typ := .hasMany, targetIndex := 3, referenceField := "id",
    referenceIndex := 0, referenceThrough := "", foreignField := "user_id",
    foreignIndex := 1, foreignThrough := "", through := "", autosave := true }

/-- Descriptor the resolver computes for `sfThrSing` at position 4. -/
def dThrSing : associationData :=
  { typ := .hasOne, targetIndex := 4, referenceField := "id",
    referenceIndex := 0, referenceThrough := "", foreignField := "id",
    foreignIndex := 0, foreignThrough := "", through := "", autosave := false }

/-- A zero-valued `Address` instance (two scalar fields). -/
def zeroAddress : GoVal := .vstruct [.vint 0, .vint 0]

/-- Handle over a has-many association (for the multiplicity-many failure). -/
def aMany : Association :=
  { data := dHasMany,
    rv := .vstruct [.vint 0, .vint 0, .vnilSlice, .vnilSlice, .vint 0, .vint 0, .vint 0] }

/-- Handle over a belongs-to association whose target pointer is set. -/
def aOne : Association :=
  { data := dBelongs, rv := .vstruct [.vptr (.vstruct [.vint 9, .vint 3]), .vint 9] }

/-- Handle over a belongs-to association whose target pointer is nil. -/
def aNil : Association :=
  { data := dBelongs, rv := .vstruct [.vnil zeroAddress, .vint 0] }

/-- Handle over a belongs-to association stored as an embedded struct. -/
def aEmb : Association :=
  { data := dBelongs, rv := .vstruct [.vstruct [.vint 4, .vint 0], .vint 4] }

/-- Handle over a has-many association whose slice field is nil. -/
def aNilSlice : Association :=
  { data := dHasMany, rv := .vstruct [.vint 0, .vint 0, .vnilSlice, .vnilSlice] }

/-- Handle over a has-many association stored as a nil pointer to a slice
(the pointee's zero value is the nil slice). -/
def aNilPtrSlice : Association :=
  { data := dHasMany, rv := .vstruct [.vint 0, .vint 0, .vnilSlice, .vnil .vnilSlice] }

/-- The cache contents after resolving the fixture's `address` field once,
starting from an empty cache. -/
def cacheAfter : AssocCache := [((rtUser, 0), dBelongs)]

/-- A fixture Persisted predicate (which one is irrelevant to the claims). -/
def pAlways : GoVal → Bool := fun _ => true

/-!
Helper lemmas about the embedded definitions.
-/

theorem getAssocField_empty : getAssocField "" = ("", "") := rfl

theorem resolveField_eq_resolveSF (w : World) (rt : HostType) (i : Nat)
    (sf : StructField) (hsf : rt.fields[i]? = some sf) :
    resolveField w rt i = resolveSF w rt.name i sf := by
  unfold resolveField
  rw [hsf]

theorem resolveSF_ok_inv (w : World) (rtName : String) (i : Nat) (sf : StructField)
    (d : associationData) (hok : resolveSF w rtName i sf = .ok d) :
    ∃ ri fi, lookupIdx (w.docIndex rtName) (inferKeys w rtName sf).1 = some ri ∧
      lookupIdx (w.docIndex sf.ftype.baseName) (inferKeys w rtName sf).2.1 = some fi ∧
      d = buildData w rtName i sf ri fi := by
  unfold resolveSF at hok
  split at hok
  · exact Except.noConfusion hok
  next ri h1 =>
    split at hok
    · exact Except.noConfusion hok
    next fi h2 =>
      exact ⟨ri, fi, h1, h2, (Except.ok.inj hok).symm⟩

theorem resolveSF_ok_of (w : World) (rtName : String) (i : Nat) (sf : StructField)
    (ri fi : Nat)
    (h1 : lookupIdx (w.docIndex rtName) (inferKeys w rtName sf).1 = some ri)
    (h2 : lookupIdx (w.docIndex sf.ftype.baseName) (inferKeys w rtName sf).2.1 = some fi) :
    resolveSF w rtName i sf = .ok (buildData w rtName i sf ri fi) := by
  unfold resolveSF
  rw [h1, h2]

theorem resolveSF_err_ref (w : World) (rtName : String) (i : Nat) (sf : StructField)
    (h1 : lookupIdx (w.docIndex rtName) (inferKeys w rtName sf).1 = none) :
    resolveSF w rtName i sf =
      .error ("rel: references (" ++ (inferKeys w rtName sf).1 ++ ") field not found ") := by
  unfold resolveSF
  rw [h1]

theorem resolveSF_err_fk (w : World) (rtName : String) (i : Nat) (sf : StructField)
    (ri : Nat)
    (h1 : lookupIdx (w.docIndex rtName) (inferKeys w rtName sf).1 = some ri)
    (h2 : lookupIdx (w.docIndex sf.ftype.baseName) (inferKeys w rtName sf).2.1 = none) :
    resolveSF w rtName i sf =
      .error ("rel: foreign_key (" ++ (inferKeys w rtName sf).2.1 ++ ") field not found") := by
  unfold resolveSF
  rw [h1, h2]

theorem inferKeys_through_tag (w : World) (rtName : String) (sf : StructField)
    (hc : (getAssocField sf.refTag).1 = "" ∨ (getAssocField sf.fkTag).1 = "")
    (hth : sf.throughTag ≠ "") :
    inferKeys w rtName sf =
      ("id", "id", w.camelToSnake rtName ++ "_id",
        w.camelToSnake sf.ftype.baseName ++ "_id") := by
  unfold inferKeys
  rw [if_pos hc, if_pos hth]

theorem inferKeys_belongs (w : World) (rtName : String) (sf : StructField)
    (hc : (getAssocField sf.refTag).1 = "" ∨ (getAssocField sf.fkTag).1 = "")
    (hth : sf.throughTag = "")
    (hl : (lookupIdx (w.docIndex rtName) (sf.fname ++ "_id")).isSome = true) :
    inferKeys w rtName sf =
      (sf.fname ++ "_id", "id", (getAssocField sf.refTag).2, (getAssocField sf.fkTag).2) := by
  unfold inferKeys
  rw [if_pos hc, if_neg (by simp [hth]), if_pos hl]

theorem inferKeys_hasone (w : World) (rtName : String) (sf : StructField)
    (hc : (getAssocField sf.refTag).1 = "" ∨ (getAssocField sf.fkTag).1 = "")
    (hth : sf.throughTag = "")
    (hl : (lookupIdx (w.docIndex rtName) (sf.fname ++ "_id")).isSome = false) :
    inferKeys w rtName sf =
      ("id", w.camelToSnake rtName ++ "_id",
        (getAssocField sf.refTag).2, (getAssocField sf.fkTag).2) := by
  unfold inferKeys
  rw [if_pos hc, if_neg (by simp [hth]), if_neg (by simp [hl])]

theorem cacheLoad_head (c : AssocCache) (k : HostType × Nat) (d : associationData) :
    cacheLoad ((((k, d)) :: c : List ((HostType × Nat) × associationData))) k = some d := by
  unfold cacheLoad
  rw [if_pos rfl]

theorem getField_set_self (v x y : GoVal) (i : Nat) (h : getField v i = some x) :
    getField (setField v i y) i = some y := by
  cases v <;> simp [getField, setField] at h ⊢
  next fs =>
    have hlen : i < fs.length := by
      rcases List.getElem?_eq_some_iff.mp h with ⟨hl, _⟩
      exact hl
    exact List.getElem?_set_eq_of_lt y hlen

theorem buildFrom_belongsTo (ks : String × String × String × String)
    (i : Nat) (sf : StructField) (ri fi : Nat)
    (hsing : sf.ftype.isSliceKind = false)
    (hgt : ks.1.length > ks.2.1.length) :
    buildFrom ks i sf ri fi =
      { typ := .belongsTo, targetIndex := i, referenceField := ks.1,
        referenceIndex := ri, referenceThrough := "", foreignField := ks.2.1,
        foreignIndex := fi, foreignThrough := "", through := "",
        autosave := sf.autosaveTag == "true" } := by
  unfold buildFrom
  rw [hsing]
  simp [hgt]

theorem buildFrom_hasOne (ks : String × String × String × String)
    (i : Nat) (sf : StructField) (ri fi : Nat)
    (hsing : sf.ftype.isSliceKind = false)
    (hle : ¬ ks.1.length > ks.2.1.length) :
    buildFrom ks i sf ri fi =
      { typ := .hasOne, targetIndex := i, referenceField := ks.1,
        referenceIndex := ri, referenceThrough := "", foreignField := ks.2.1,
        foreignIndex := fi, foreignThrough := "", through := "",
        autosave := sf.autosaveTag == "true" } := by
  unfold buildFrom
  rw [hsing]
  simp [hle]

theorem buildFrom_manyToMany (ks : String × String × String × String)
    (i : Nat) (sf : StructField) (ri fi : Nat)
    (hsl : sf.ftype.isSliceKind = true)
    (hth : sf.throughTag ≠ "") :
    buildFrom ks i sf ri fi =
      { typ := .manyToMany, targetIndex := i, referenceField := ks.1,
        referenceIndex := ri, referenceThrough := ks.2.2.1, foreignField := ks.2.1,
        foreignIndex := fi, foreignThrough := ks.2.2.2, through := sf.throughTag,
        autosave := sf.autosaveTag == "true" } := by
  unfold buildFrom
  rw [hsl]
  simp [hth]

theorem buildFrom_hasMany (ks : String × String × String × String)
    (i : Nat) (sf : StructField) (ri fi : Nat)
    (hsl : sf.ftype.isSliceKind = true)
    (hth : sf.throughTag = "") :
    buildFrom ks i sf ri fi =
      { typ := .hasMany, targetIndex := i, referenceField := ks.1,
        referenceIndex := ri, referenceThrough := "", foreignField := ks.2.1,
        foreignIndex := fi, foreignThrough := "", through := "",
        autosave := sf.autosaveTag == "true" } := by
  unfold buildFrom
  rw [hsl]
  simp [hth]

/-- C1: for every host type and field position where the field carries no
ref/fk tags and no through tag, the field's unwrapped type is a single
(non-sequence) record type, and the host type's field index contains a field
named `<fieldName>_id`, the resolved descriptor has type BelongsTo,
reference field `<fieldName>_id`, and foreign field `id`. -/
theorem claim1_belongsTo_inference (w : World) (rt : HostType) (i : Nat)
    (sf : StructField) (d : associationData)
    (hsf : rt.fields[i]? = some sf)
    (href : sf.refTag = "") (hfk : sf.fkTag = "") (hth : sf.throughTag = "")
    (hsing : sf.ftype.isSliceKind = false)
    (hhas : (lookupIdx (w.docIndex rt.name) (sf.fname ++ "_id")).isSome = true)
    (hok : resolveField w rt i = Except.ok d) :
    d.typ = .belongsTo ∧ d.referenceField = sf.fname ++ "_id" ∧
      d.foreignField = "id" := by
  rw [resolveField_eq_resolveSF w rt i sf hsf] at hok
  obtain ⟨ri, fi, h1, h2, hd⟩ := resolveSF_ok_inv w rt.name i sf d hok
  have hk : inferKeys w rt.name sf = (sf.fname ++ "_id", "id", "", "") := by
    have h := inferKeys_belongs w rt.name sf
      (Or.inl (by rw [href, getAssocField_empty])) hth hhas
    rw [href, hfk, getAssocField_empty] at h
    exact h
  have hgt : ("id" : String).length < (sf.fname ++ "_id").length := by
    rw [String.length_append]
    have e3 : ("_id" : String).length = 3 := rfl
    have e2 : ("id" : String).length = 2 := rfl
    omega
  rw [hd]
  unfold buildData
  rw [hk, buildFrom_belongsTo _ i sf ri fi hsing hgt]
  exact ⟨rfl, rfl, rfl⟩

/-- Witness for C1: the `address` field of the `User` fixture. -/
theorem claim1_belongsTo_inference_witness :
    resolveField wUser rtUser 0 = Except.ok dBelongs ∧
      (dBelongs.typ = .belongsTo ∧ dBelongs.referenceField = sfBelongs.fname ++ "_id" ∧
        dBelongs.foreignField = "id") :=
  ⟨rfl, claim1_belongsTo_inference wUser rtUser 0 sfBelongs dBelongs
    rfl rfl rfl rfl rfl rfl rfl⟩

/-- C2: for every host type and field position where the field carries no
ref/fk tags and no through tag, the field's unwrapped type is a single
(non-sequence) record type, and the host type's field index lacks a field
named `<fieldName>_id`, the resolved descriptor has type HasOne, reference
field `id`, and foreign field `snake_case(hostTypeName) + "_id"`. -/
theorem claim2_hasOne_fallback (w : World) (rt : HostType) (i : Nat)
    (sf : StructField) (d : associationData)
    (hsf : rt.fields[i]? = some sf)
    (href : sf.refTag = "") (hfk : sf.fkTag = "") (hth : sf.throughTag = "")
    (hsing : sf.ftype.isSliceKind = false)
    (hmiss : (lookupIdx (w.docIndex rt.name) (sf.fname ++ "_id")).isSome = false)
    (hok : resolveField w rt i = Except.ok d) :
    d.typ = .hasOne ∧ d.referenceField = "id" ∧
      d.foreignField = w.camelToSnake rt.name ++ "_id" := by
  rw [resolveField_eq_resolveSF w rt i sf hsf] at hok
  obtain ⟨ri, fi, h1, h2, hd⟩ := resolveSF_ok_inv w rt.name i sf d hok
  have hk : inferKeys w rt.name sf = ("id", w.camelToSnake rt.name ++ "_id", "", "") := by
    have h := inferKeys_hasone w rt.name sf
      (Or.inl (by rw [href, getAssocField_empty])) hth hmiss
    rw [href, hfk, getAssocField_empty] at h
    exact h
  have hle : ¬ ("id" : String).length > (w.camelToSnake rt.name ++ "_id").length := by
    rw [String.length_append]
    have e3 : ("_id" : String).length = 3 := rfl
    have e2 : ("id" : String).length = 2 := rfl
    omega
  rw [hd]
  unfold buildData
  rw [hk, buildFrom_hasOne _ i sf ri fi hsing hle]
  exact ⟨rfl, rfl, rfl⟩

/-- Witness for C2: the `home` field of the `User` fixture. -/
theorem claim2_hasOne_fallback_witness :
    resolveField wUser rtUser 1 = Except.ok dHasOne ∧
      (dHasOne.typ = .hasOne ∧ dHasOne.referenceField = "id" ∧
        dHasOne.foreignField = wUser.camelToSnake rtUser.name ++ "_id") :=
  ⟨rfl, claim2_hasOne_fallback wUser rtUser 1 sfHasOne dHasOne
    rfl rfl rfl rfl rfl rfl rfl⟩

/-- C3: a sequence-typed association field with a through tag naming a table
and no explicit ref/fk tags resolves to a ManyToMany descriptor whose
through table is the tag's value, whose reference-through is
`snake_case(hostTypeName) + "_id"` and whose foreign-through is
`snake_case(targetTypeName) + "_id"`; a sequence-typed field without a
through tag resolves to HasMany. -/
theorem claim3_manyToMany_inference (w : World) (rt : HostType) (i j : Nat)
    (sf1 sf2 : StructField) (d1 d2 : associationData) (tbl : String)
    (hsf1 : rt.fields[i]? = some sf1)
    (h1ref : sf1.refTag = "") (h1fk : sf1.fkTag = "")
    (h1sl : sf1.ftype.isSliceKind = true)
    (h1th : sf1.throughTag = tbl) (htbl : tbl ≠ "")
    (hok1 : resolveField w rt i = Except.ok d1)
    (hsf2 : rt.fields[j]? = some sf2)
    (h2sl : sf2.ftype.isSliceKind = true)
    (h2th : sf2.throughTag = "")
    (hok2 : resolveField w rt j = Except.ok d2) :
    (d1.typ = .manyToMany ∧ d1.through = tbl ∧
      d1.referenceThrough = w.camelToSnake rt.name ++ "_id" ∧
      d1.foreignThrough = w.camelToSnake sf1.ftype.baseName ++ "_id") ∧
    d2.typ = .hasMany := by
  constructor
  · rw [resolveField_eq_resolveSF w rt i sf1 hsf1] at hok1
    obtain ⟨ri, fi, h1, h2, hd⟩ := resolveSF_ok_inv w rt.name i sf1 d1 hok1
    have hth1 : sf1.throughTag ≠ "" := by rw [h1th]; exact htbl
    have hk := inferKeys_through_tag w rt.name sf1
      (Or.inl (by rw [h1ref, getAssocField_empty])) hth1
    rw [hd]
    unfold buildData
    rw [hk, buildFrom_manyToMany _ i sf1 ri fi h1sl hth1]
    exact ⟨rfl, h1th, rfl, rfl⟩
  · rw [resolveField_eq_resolveSF w rt j sf2 hsf2] at hok2
    obtain ⟨ri, fi, h1, h2, hd⟩ := resolveSF_ok_inv w rt.name j sf2 d2 hok2
    rw [hd]
    unfold buildData
    rw [buildFrom_hasMany _ j sf2 ri fi h2sl h2th]

/-- Witness for C3: the `addresses` (through-tagged) and `zones` (untagged)
slice fields of the `User` fixture. -/
theorem claim3_manyToMany_inference_witness :
    resolveField wUser rtUser 2 = Except.ok dM2M ∧
    resolveField wUser rtUser 3 = Except.ok dHasMany ∧
    ((dM2M.typ = .manyToMany ∧ dM2M.through = "user_addresses" ∧
      dM2M.referenceThrough = wUser.camelToSnake rtUser.name ++ "_id" ∧
      dM2M.foreignThrough = wUser.camelToSnake sfM2M.ftype.baseName ++ "_id") ∧
     dHasMany.typ = .hasMany) :=
  ⟨rfl, rfl, claim3_manyToMany_inference wUser rtUser 2 3 sfM2M sfHasMany
    dM2M dHasMany "user_addresses" rfl rfl rfl rfl rfl (by decide) rfl rfl rfl rfl rfl⟩

/-- C4: for every host type and field position, resolution fails fatally
exactly when the inferred-or-explicit reference field is absent from the
host type's field index or the inferred-or-explicit foreign key is absent
from the target type's field index; the fatal message names the missing
field, and when both are present resolution succeeds. -/
theorem claim4_missing_field_failure (w : World) (rt : HostType) (i : Nat)
    (sf : StructField) (hsf : rt.fields[i]? = some sf) :
    (exOk (resolveField w rt i) = true ↔
      ((lookupIdx (w.docIndex rt.name) (inferKeys w rt.name sf).1).isSome = true ∧
       (lookupIdx (w.docIndex sf.ftype.baseName) (inferKeys w rt.name sf).2.1).isSome = true)) ∧
    (lookupIdx (w.docIndex rt.name) (inferKeys w rt.name sf).1 = none →
      resolveField w rt i =
        Except.error ("rel: references (" ++ (inferKeys w rt.name sf).1 ++ ") field not found ")) ∧
    (∀ ri, lookupIdx (w.docIndex rt.name) (inferKeys w rt.name sf).1 = some ri →
      lookupIdx (w.docIndex sf.ftype.baseName) (inferKeys w rt.name sf).2.1 = none →
      resolveField w rt i =
        Except.error ("rel: foreign_key (" ++ (inferKeys w rt.name sf).2.1 ++ ") field not found")) := by
  rw [resolveField_eq_resolveSF w rt i sf hsf]
  refine ⟨?_, ?_, ?_⟩
  · cases h1 : lookupIdx (w.docIndex rt.name) (inferKeys w rt.name sf).1 with
    | none =>
      rw [resolveSF_err_ref w rt.name i sf h1]
      simp [exOk]
    | some ri =>
      cases h2 : lookupIdx (w.docIndex sf.ftype.baseName) (inferKeys w rt.name sf).2.1 with
      | none =>
        rw [resolveSF_err_fk w rt.name i sf ri h1 h2]
        simp [exOk]
      | some fi =>
        rw [resolveSF_ok_of w rt.name i sf ri fi h1 h2]
        simp [exOk]
  · intro h1
    exact resolveSF_err_ref w rt.name i sf h1
  · intro ri h1 h2
    exact resolveSF_err_fk w rt.name i sf ri h1 h2

/-- Witness for C4: the `bad` field of the fixture, whose explicit
`ref:"missing"` tag names a field the host lacks. -/
theorem claim4_missing_field_failure_witness :
    resolveField wUser rtUser 5 =
      Except.error ("rel: references (" ++ (inferKeys wUser rtUser.name sfBadRef).1 ++ ") field not found ") :=
  (claim4_missing_field_failure wUser rtUser 5 sfBadRef rfl).2.1 rfl

/-- C9: the through table and both through join keys are populated only for
ManyToMany descriptors; every resolved BelongsTo, HasOne or HasMany
descriptor has all three empty, even when the source field carried a
through tag. -/
theorem claim9_through_only_manyToMany (w : World) (rt : HostType) (i : Nat)
    (d : associationData)
    (hok : resolveField w rt i = Except.ok d)
    (hne : d.typ ≠ .manyToMany) :
    d.through = "" ∧ d.referenceThrough = "" ∧ d.foreignThrough = "" := by
  unfold resolveField at hok
  split at hok
  · exact Except.noConfusion hok
  next sf hsf =>
    obtain ⟨ri, fi, h1, h2, hd⟩ := resolveSF_ok_inv w rt.name i sf d hok
    rw [hd] at hne ⊢
    unfold buildData at hne ⊢
    cases hsl : sf.ftype.isSliceKind with
    | true =>
      by_cases hth : sf.throughTag = ""
      · rw [buildFrom_hasMany _ i sf ri fi hsl hth]
        exact ⟨rfl, rfl, rfl⟩
      · rw [buildFrom_manyToMany _ i sf ri fi hsl hth] at hne
        exact absurd rfl hne
    | false =>
      by_cases hgt : (inferKeys w rt.name sf).1.length > (inferKeys w rt.name sf).2.1.length
      · rw [buildFrom_belongsTo _ i sf ri fi hsl hgt]
        exact ⟨rfl, rfl, rfl⟩
      · rw [buildFrom_hasOne _ i sf ri fi hsl hgt]
        exact ⟨rfl, rfl, rfl⟩

/-- Witness for C9: the through-tagged singular field `home2` resolves to a
HasOne descriptor with empty through data. -/
theorem claim9_through_only_manyToMany_witness :
    resolveField wUser rtUser 4 = Except.ok dThrSing ∧
      (dThrSing.through = "" ∧ dThrSing.referenceThrough = "" ∧
        dThrSing.foreignThrough = "") :=
  ⟨rfl, claim9_through_only_manyToMany wUser rtUser 4 dThrSing rfl (by decide)⟩

theorem buildFrom_eq_of (ks1 ks2 : String × String × String × String) (i : Nat)
    (sf1 sf2 : StructField) (ri fi : Nat)
    (hft : sf1.ftype = sf2.ftype) (hth : sf1.throughTag = sf2.throughTag)
    (has : sf1.autosaveTag = sf2.autosaveTag)
    (h1 : ks1.1 = ks2.1) (h2 : ks1.2.1 = ks2.2.1)
    (h3 : sf2.throughTag ≠ "" → ks1.2.2 = ks2.2.2) :
    buildFrom ks1 i sf1 ri fi = buildFrom ks2 i sf2 ri fi := by
  unfold buildFrom
  rw [hft, hth, has, h1, h2]
  by_cases hthe : sf2.throughTag = ""
  · simp [hthe]
  · rw [h3 hthe]

/-- C10: when exactly one of the ref and fk tags is supplied on an
association field, the resolver runs the full key-inference step and
overwrites both keys, so the resolution result equals the result for the
same field with neither tag supplied: the explicit tag value is discarded. -/
theorem claim10_single_tag_discarded (w : World) (rtName : String) (i : Nat)
    (sf : StructField)
    (h : ((getAssocField sf.refTag).1 ≠ "" ∧ (getAssocField sf.fkTag).1 = "") ∨
         ((getAssocField sf.refTag).1 = "" ∧ (getAssocField sf.fkTag).1 ≠ "")) :
    resolveSF w rtName i sf =
      resolveSF w rtName i { sf with refTag := "", fkTag := "" } := by
  have hc : (getAssocField sf.refTag).1 = "" ∨ (getAssocField sf.fkTag).1 = "" := by
    rcases h with ⟨h1, h2⟩ | ⟨h1, h2⟩
    · exact Or.inr h2
    · exact Or.inl h1
  have hc2 : (getAssocField ({ sf with refTag := "", fkTag := "" } : StructField).refTag).1 = "" := by
    rw [getAssocField_empty]
  have hft : sf.ftype = ({ sf with refTag := "", fkTag := "" } : StructField).ftype := rfl
  have hks : (inferKeys w rtName sf).1 = (inferKeys w rtName { sf with refTag := "", fkTag := "" }).1 ∧
      (inferKeys w rtName sf).2.1 = (inferKeys w rtName { sf with refTag := "", fkTag := "" }).2.1 ∧
      (sf.throughTag ≠ "" → (inferKeys w rtName sf).2.2 =
        (inferKeys w rtName { sf with refTag := "", fkTag := "" }).2.2) := by
    by_cases hth : sf.throughTag = ""
    · by_cases hl : (lookupIdx (w.docIndex rtName) (sf.fname ++ "_id")).isSome = true
      · have hk1 := inferKeys_belongs w rtName sf hc hth hl
        have hk2 := inferKeys_belongs w rtName { sf with refTag := "", fkTag := "" }
          (Or.inl hc2) hth hl
        rw [hk1, hk2]
        exact ⟨rfl, rfl, fun hcon => absurd hth hcon⟩
      · have hl2 : (lookupIdx (w.docIndex rtName) (sf.fname ++ "_id")).isSome = false := by
          cases hx : (lookupIdx (w.docIndex rtName) (sf.fname ++ "_id")).isSome
          · rfl
          · exact absurd hx hl
        have hk1 := inferKeys_hasone w rtName sf hc hth hl2
        have hk2 := inferKeys_hasone w rtName { sf with refTag := "", fkTag := "" }
          (Or.inl hc2) hth hl2
        rw [hk1, hk2]
        exact ⟨rfl, rfl, fun hcon => absurd hth hcon⟩
    · have hk1 := inferKeys_through_tag w rtName sf hc hth
      have hk2 := inferKeys_through_tag w rtName { sf with refTag := "", fkTag := "" }
        (Or.inl hc2) hth
      rw [hk1, hk2]
      exact ⟨rfl, rfl, fun _ => rfl⟩
  obtain ⟨hks1, hks2, hks3⟩ := hks
  unfold resolveSF
  unfold buildData
  rw [hks1, hks2, hft]
  cases hL1 : lookupIdx (w.docIndex rtName)
      (inferKeys w rtName { sf with refTag := "", fkTag := "" }).1 with
  | none => rfl
  | some ri =>
    cases hL2 : lookupIdx
        (w.docIndex ({ sf with refTag := "", fkTag := "" } : StructField).ftype.baseName)
        (inferKeys w rtName { sf with refTag := "", fkTag := "" }).2.1 with
    | none => rfl
    | some fi =>
      exact congrArg Except.ok
        (buildFrom_eq_of _ _ i sf { sf with refTag := "", fkTag := "" } ri fi
          rfl rfl rfl hks1 hks2 hks3)

/-- Witness for C10: the `address2` field carries only a `ref` tag; its
resolution coincides with the untagged resolution. -/
theorem claim10_single_tag_discarded_witness :
    resolveSF wUser rtUser.name 6 sfOneTag =
      resolveSF wUser rtUser.name 6 { sfOneTag with refTag := "", fkTag := "" } :=
  claim10_single_tag_discarded wUser rtUser.name 6 sfOneTag
    (Or.inl ⟨by decide, rfl⟩)

/-- C7: resolving the same (host type, field position) pair twice yields
descriptors equal field-by-field, and after the first resolution every later
resolution for that key is answered from the cache (hit flag `true`, no
re-inference) with the identical descriptor. -/
theorem claim7_cache_reuse (w : World) (c : AssocCache) (rt : HostType)
    (i : Nat) (d : associationData) (c2 : AssocCache) (b : Bool)
    (h : extractAssociationData w c rt i = Except.ok (d, c2, b)) :
    cacheLoad c2 (rt, i) = some d ∧
    ∀ c3, cacheLoad c3 (rt, i) = some d →
      extractAssociationData w c3 rt i = Except.ok (d, c3, true) := by
  constructor
  · unfold extractAssociationData at h
    split at h
    next d0 hload =>
      simp only [Except.ok.injEq, Prod.mk.injEq] at h
      obtain ⟨had, hc, _⟩ := h
      rw [← hc, ← had]
      exact hload
    next hmiss =>
      split at h
      · exact Except.noConfusion h
      next d0 hres =>
        simp only [Except.ok.injEq, Prod.mk.injEq] at h
        obtain ⟨had, hc, _⟩ := h
        rw [← hc, ← had]
        exact cacheLoad_head c (rt, i) d0
  · intro c3 hc3
    unfold extractAssociationData
    rw [hc3]

/-- Witness for C7: resolving the fixture's `address` field from the empty
cache, then resolving again from the resulting cache. -/
theorem claim7_cache_reuse_witness :
    extractAssociationData wUser [] rtUser 0 = Except.ok (dBelongs, cacheAfter, false) ∧
    cacheLoad cacheAfter (rtUser, 0) = some dBelongs ∧
    extractAssociationData wUser cacheAfter rtUser 0 =
      Except.ok (dBelongs, cacheAfter, true) :=
  ⟨rfl,
    (claim7_cache_reuse wUser [] rtUser 0 dBelongs cacheAfter false rfl).1,
    (claim7_cache_reuse wUser [] rtUser 0 dBelongs cacheAfter false rfl).2 cacheAfter
      (claim7_cache_reuse wUser [] rtUser 0 dBelongs cacheAfter false rfl).1⟩

/-- C5: ForeignValue fails fatally when the association's type is HasMany or
ManyToMany; on a BelongsTo or HasOne association it returns the target
instance's current value at the foreign-key position with pointer
indirection resolved. -/
theorem claim5_foreignValue (aM aS : Association) (fs : List GoVal)
    (v target : GoVal)
    (hM : aM.data.typ = .hasMany ∨ aM.data.typ = .manyToMany)
    (hS : aS.data.typ = .belongsTo ∨ aS.data.typ = .hasOne)
    (ht : getField aS.rv aS.data.targetIndex = some target)
    (hshape : target = GoVal.vstruct fs ∨ target = GoVal.vptr (GoVal.vstruct fs))
    (hv : fs[aS.data.foreignIndex]? = some v) :
    Association.foreignValue aM =
      Except.error "cannot infer foreign value for has many or many to many association" ∧
    Association.foreignValue aS = Except.ok (indirectV v) := by
  constructor
  · unfold Association.foreignValue
    rw [if_pos hM]
  · unfold Association.foreignValue
    have hguard : ¬ (aS.data.typ = .hasMany ∨ aS.data.typ = .manyToMany) := by
      rcases hS with hh | hh <;> rw [hh] <;> decide
    rw [if_neg hguard, ht]
    rcases hshape with rfl | rfl
    · show structFieldIndirect (GoVal.vstruct fs) aS.data.foreignIndex = Except.ok (indirectV v)
      simp only [structFieldIndirect, hv]
    · show structFieldIndirect (GoVal.vstruct fs) aS.data.foreignIndex = Except.ok (indirectV v)
      simp only [structFieldIndirect, hv]

/-- Witness for C5: the fixture has-many handle and the set-pointer
belongs-to handle. -/
theorem claim5_foreignValue_witness :
    Association.foreignValue aMany =
      Except.error "cannot infer foreign value for has many or many to many association" ∧
    Association.foreignValue aOne = Except.ok (indirectV (GoVal.vint 9)) :=
  claim5_foreignValue aMany aOne [.vint 9, .vint 3] (.vint 9)
    (.vptr (.vstruct [.vint 9, .vint 3]))
    (Or.inl rfl) (Or.inl rfl) rfl (Or.inr rfl) rfl

/-- C6 counterexample: a BelongsTo association whose target field is an
unset nil pointer, on which ForeignValue fails fatally (the claim asserts
every such call completes without failing). -/
theorem claim6_totality_counterexample :
    aNil.data.typ = AssociationType.belongsTo ∧
    getField aNil.rv aNil.data.targetIndex = some (GoVal.vnil zeroAddress) ∧
    Association.foreignValue aNil =
      Except.error "reflect: call of reflect.Value.Field on zero Value" :=
  ⟨rfl, rfl, rfl⟩

/-- C6 (amended): Document and IsZero complete without failing on
zero-value and unset-pointer association fields; Collection completes
without failing on sequence-shaped targets, whether already initialized
(a nil or non-nil slice) or an unset pointer to a slice (auto-allocating in
the nil cases); and ForeignValue on a BelongsTo or HasOne association
completes whenever the target field holds a struct value in range (or, per
C5, a set pointer to one).  On an unset nil pointer target, however,
ForeignValue fails fatally. -/
theorem claim6_handle_totality (p : GoVal → Bool) (a1 a2 a3 a4 : Association)
    (fs : List GoVal) (z : GoVal)
    (h1 : getField a1.rv a1.data.targetIndex = some (GoVal.vnil z))
    (h2 : getField a2.rv a2.data.targetIndex = some (GoVal.vstruct fs))
    (h2t : a2.data.typ = .belongsTo ∨ a2.data.typ = .hasOne)
    (h2i : a2.data.foreignIndex < fs.length)
    (h3 : getField a3.rv a3.data.targetIndex = some GoVal.vnilSlice)
    (h4 : getField a4.rv a4.data.targetIndex = some (GoVal.vnil GoVal.vnilSlice)) :
    ((Association.document p a1).isSome = true ∧
      (Association.isZero a1).isSome = true) ∧
    ((Association.document p a2).isSome = true ∧
      (Association.isZero a2).isSome = true ∧
      exOk (Association.foreignValue a2) = true) ∧
    ((Association.collection a3).isSome = true ∧
      (Association.isZero a3).isSome = true) ∧
    (Association.collection a4).isSome = true ∧
    (a1.data.typ = .belongsTo ∨ a1.data.typ = .hasOne →
      Association.foreignValue a1 =
        Except.error "reflect: call of reflect.Value.Field on zero Value") := by
  refine ⟨⟨?_, ?_⟩, ⟨?_, ?_, ?_⟩, ⟨?_, ?_⟩, ?_, ?_⟩
  · unfold Association.document
    rw [h1]
    rfl
  · unfold Association.isZero
    rw [h1]
    rfl
  · unfold Association.document
    rw [h2]
    rfl
  · unfold Association.isZero
    rw [h2]
    rfl
  · unfold Association.foreignValue
    have hguard : ¬ (a2.data.typ = .hasMany ∨ a2.data.typ = .manyToMany) := by
      rcases h2t with hh | hh <;> rw [hh] <;> decide
    rw [if_neg hguard, h2]
    show exOk (structFieldIndirect (GoVal.vstruct fs) a2.data.foreignIndex) = true
    simp only [structFieldIndirect, List.getElem?_eq_getElem h2i]
    rfl
  · unfold Association.collection
    rw [h3]
    rfl
  · unfold Association.isZero
    rw [h3]
    rfl
  · unfold Association.collection
    rw [h4]
    rfl
  · intro ht1
    have hguard : ¬ (a1.data.typ = .hasMany ∨ a1.data.typ = .manyToMany) := by
      rcases ht1 with hh | hh <;> rw [hh] <;> decide
    unfold Association.foreignValue
    rw [if_neg hguard, h1]

/-- Witness for the amended C6 at the fixture handles (nil pointer to a
struct, embedded struct, nil slice, nil pointer to a slice). -/
theorem claim6_handle_totality_witness :
    ((Association.document pAlways aNil).isSome = true ∧
      (Association.isZero aNil).isSome = true) ∧
    ((Association.document pAlways aEmb).isSome = true ∧
      (Association.isZero aEmb).isSome = true ∧
      exOk (Association.foreignValue aEmb) = true) ∧
    ((Association.collection aNilSlice).isSome = true ∧
      (Association.isZero aNilSlice).isSome = true) ∧
    (Association.collection aNilPtrSlice).isSome = true ∧
    (aNil.data.typ = .belongsTo ∨ aNil.data.typ = .hasOne →
      Association.foreignValue aNil =
        Except.error "reflect: call of reflect.Value.Field on zero Value") :=
  claim6_handle_totality pAlways aNil aEmb aNilSlice aNilPtrSlice
    [.vint 4, .vint 0] zeroAddress rfl rfl (Or.inl rfl) (by decide) rfl rfl

/-- C8: over a singular association, Document on a nil pointer target
allocates the zero-value target, leaves the field a set (non-nil) pointer,
and reports loaded = false; on a set pointer or a plain embedded struct it
wraps the existing value and reports loaded equal to the Persisted
predicate. -/
theorem claim8_document (p : GoVal → Bool) (a1 a2 a3 : Association)
    (z v : GoVal) (fs : List GoVal)
    (ht1 : a1.data.typ = .belongsTo ∨ a1.data.typ = .hasOne)
    (h1 : getField a1.rv a1.data.targetIndex = some (GoVal.vnil z))
    (ht2 : a2.data.typ = .belongsTo ∨ a2.data.typ = .hasOne)
    (h2 : getField a2.rv a2.data.targetIndex = some (GoVal.vptr v))
    (ht3 : a3.data.typ = .belongsTo ∨ a3.data.typ = .hasOne)
    (h3 : getField a3.rv a3.data.targetIndex = some (GoVal.vstruct fs)) :
    (Association.document p a1 =
        some (z, false, setField a1.rv a1.data.targetIndex (GoVal.vptr z)) ∧
      getField (setField a1.rv a1.data.targetIndex (GoVal.vptr z))
        a1.data.targetIndex = some (GoVal.vptr z)) ∧
    Association.document p a2 = some (v, p v, a2.rv) ∧
    Association.document p a3 = some (GoVal.vstruct fs, p (GoVal.vstruct fs), a3.rv) := by
  refine ⟨⟨?_, ?_⟩, ?_, ?_⟩
  · unfold Association.document
    rw [h1]
  · exact getField_set_self a1.rv (GoVal.vnil z) (GoVal.vptr z) a1.data.targetIndex h1
  · unfold Association.document
    rw [h2]
  · unfold Association.document
    rw [h3]

/-- Witness for C8 at the three fixture handles (nil pointer, set pointer,
embedded struct). -/
theorem claim8_document_witness :
    (Association.document pAlways aNil =
        some (zeroAddress, false,
          setField aNil.rv aNil.data.targetIndex (GoVal.vptr zeroAddress)) ∧
      getField (setField aNil.rv aNil.data.targetIndex (GoVal.vptr zeroAddress))
        aNil.data.targetIndex = some (GoVal.vptr zeroAddress)) ∧
    Association.document pAlways aOne =
      some (GoVal.vstruct [.vint 9, .vint 3],
        pAlways (GoVal.vstruct [.vint 9, .vint 3]), aOne.rv) ∧
    Association.document pAlways aEmb =
      some (GoVal.vstruct [.vint 4, .vint 0],
        pAlways (GoVal.vstruct [.vint 4, .vint 0]), aEmb.rv) :=
  claim8_document pAlways aNil aOne aEmb zeroAddress
    (GoVal.vstruct [.vint 9, .vint 3]) [.vint 4, .vint 0]
    (Or.inl rfl) rfl (Or.inl rfl) rfl (Or.inl rfl) rfl

end Rel
